import Mathlib

/-!
Verification model of the rotating-file log sink in `src/castislogger.h`
(class `cilog_backend`).  The sink state, the filesystem effects of
`consume`, and the path/index computation (`generate_filepath`,
`scan_next_index`, `parse_index`) are embedded as executable Lean
functions, and the behavioural claims about them are proved below.

Modelling conventions:
* Strings are `List Char` (`Str`), so one element is one byte of an
  ASCII filename or message (`std::string::size` agrees with `List.length`
  on the ASCII data the claims are about).
* The filesystem is explicit state: an association list of
  `(directory, filename, content)` plus the set of existing directories
  and injected fault sets (unreadable directories, failing
  `create_directories` targets, failing `open` targets).  Throwing boost
  calls are modelled with `Except Unit`; `std::ofstream` operations never
  throw (the stream carries a `good` flag instead), exactly as in the
  source.
* The wall clock (`boost::posix_time::second_clock::universal_time()`)
  is a `Date` parameter of `consume`; the `record_view` argument is the
  ignored `_rec` parameter, as in the source where it is an unnamed
  parameter.
-/

abbrev Str := List Char

/-- Calendar date, as produced by the UTC wall clock. -/
structure Date where
  year : Nat
  month : Nat
  day : Nat
deriving DecidableEq

/-- The metadata of a `boost::log::record_view`: a timestamp attached by the
facade.  `cilog_backend::consume` receives it and ignores it. -/
structure LogRecord where
  ts_date : Date
  ts_hour : Nat
  ts_min : Nat
  ts_sec : Nat
deriving DecidableEq

/-- Mutable state of `cilog_backend`: the configuration members fixed by the
constructor, plus the stream (`handle`/`good`), `file_path_` and
`characters_written_`. -/
structure Sink where
  auto_flush : Bool
  target_path : Str
  file_name_suffix : Str
  rotation_size : Nat
  handle : Option (Str × Str)
  good : Bool
  file_path : Str
  characters_written : Nat
deriving DecidableEq

/-- `cilog_backend` constructor: stores the configuration; no file is open
and no characters are written. -/
def mk_sink (target sfx : Str) (rot : Nat) (af : Bool) : Sink :=
  { auto_flush := af, target_path := target, file_name_suffix := sfx,
    rotation_size := rot, handle := none, good := true, file_path := [],
    characters_written := 0 }

/-- Filesystem snapshot: files keyed by (directory, name) with their byte
content, the set of directories, and fault-injection sets for the three
fallible primitives used by the source (`directory_iterator`,
`create_directories`, `ofstream::open`). -/
structure FS where
  files : List (Str × Str × Str)
  dirs : List Str
  unreadable : List Str
  mkdir_fail : List Str
  open_fail : List (Str × Str)
deriving DecidableEq

/-- Membership of a string in a list of strings, by `==`. -/
def str_mem : List Str → Str → Bool
  | [], _ => false
  | x :: t, s => (x == s) || str_mem t s

/-- Membership of a (directory, name) key in a key list, by `==`. -/
def key_mem : List (Str × Str) → Str → Str → Bool
  | [], _, _ => false
  | (d, n) :: t, dir, nm => (d == dir && n == nm) || key_mem t dir nm

/-- Content of the file (dir, nm), if present. -/
def fs_read : List (Str × Str × Str) → Str → Str → Option Str
  | [], _, _ => none
  | (d, n, c) :: t, dir, nm =>
    if d == dir && n == nm then some c else fs_read t dir nm

/-- Replace the content of (dir, nm), or create the file at the end. -/
def fs_write : List (Str × Str × Str) → Str → Str → Str → List (Str × Str × Str)
  | [], dir, nm, v => [(dir, nm, v)]
  | (d, n, c) :: t, dir, nm, v =>
    if d == dir && n == nm then (dir, nm, v) :: t
    else (d, n, c) :: fs_write t dir nm v

/-- Names yielded by `boost::filesystem::directory_iterator` over `dir`. -/
def fs_listing : List (Str × Str × Str) → Str → List Str
  | [], _ => []
  | (d, n, _) :: t, dir =>
    if d == dir then n :: fs_listing t dir else fs_listing t dir

/-- Decimal digits of a natural number, as characters. -/
def nat_str (n : Nat) : Str := (Nat.repr n).toList

/-- Zero-padded two-digit field (`%m`, `%d` of the `time_facet`). -/
def pad2 (n : Nat) : Str := if n < 10 then '0' :: nat_str n else nat_str n

/-- Zero-padded four-digit field (`%Y` of the `time_facet`). -/
def pad4 (n : Nat) : Str :=
  if n < 10 then '0' :: '0' :: '0' :: nat_str n
  else if n < 100 then '0' :: '0' :: nat_str n
  else if n < 1000 then '0' :: nat_str n
  else nat_str n

/-- `datetime_string_with_format("%Y-%m-%d")` at date `d`. -/
def date_string (d : Date) : Str :=
  pad4 d.year ++ '-' :: pad2 d.month ++ '-' :: pad2 d.day

/-- `datetime_string_with_format("%Y-%m")` at date `d`. -/
def month_string (d : Date) : Str :=
  pad4 d.year ++ '-' :: pad2 d.month

/-- The monthly directory `target_path_ / monthly_path_name`. -/
def month_dir (s : Sink) (d : Date) : Str :=
  s.target_path ++ '/' :: month_string d

/-- Character class `[\[\]0-9]` of the scan pattern in `generate_filepath`. -/
def bracket_class (c : Char) : Bool := c == '[' || c == ']' || c.isDigit

/-- `boost::regex_match(name, pattern)` for the pattern
`dp + "[\[\]0-9]*" + "_" + sfx + ".log"` built in `generate_filepath`.
Since `_` is not in the bracket class, a full match forces the class run to
be the maximal run of bracket-class characters after `dp`; the `.` of
`".log"` is an unescaped metacharacter matching one arbitrary character.
`dp` is a date string (no metacharacters) and the model takes the suffix as
literal text, faithful for metacharacter-free suffixes such as those used
by `castis::logger::init` (application names). -/
def name_matches (dp sfx nm : Str) : Bool :=
  dp.isPrefixOf nm &&
    (match (nm.drop dp.length).dropWhile bracket_class with
     | '_' :: rest3 =>
       sfx.isPrefixOf rest3 &&
         (let rest4 := rest3.drop sfx.length
          rest4.length == 4 && rest4.drop 1 == ['l', 'o', 'g'])
     | _ => false)

/-- `atoi` on the inputs reachable from `parse_index`: the numeric value of
the leading digit run, `0` when the string starts with a non-digit. -/
def atoi_model (l : Str) : Nat :=
  (l.takeWhile Char.isDigit).foldl (fun a c => a * 10 + (c.toNat - 48)) 0

/-- `cilog_backend::parse_index`: find the first `[` and the first `]`,
and `atoi` the substring starting after the `[`.  The C++ count
`pos_index_end - pos_index_begin` is a `size_t`, so when `]` precedes `[`
it wraps and `substr` is clamped to the end of the string. -/
def parse_index (nm : Str) : Nat :=
  match nm.findIdx? (fun c => c == '['), nm.findIdx? (fun c => c == ']') with
  | some b, some e =>
    atoi_model ((nm.drop (b + 1)).take (if b ≤ e then e - b else nm.length))
  | _, _ => 0

/-- One step of the loop in `cilog_backend::scan_next_index`. -/
def scan_step (dp sfx : Str) (nxt : Nat) (nm : Str) : Nat :=
  if name_matches dp sfx nm then
    (if parse_index nm ≥ nxt then parse_index nm + 1 else nxt)
  else nxt

/-- The directory-iteration loop of `scan_next_index` over a listing. -/
def scan_list (names : List Str) (dp sfx : Str) : Nat :=
  names.foldl (scan_step dp sfx) 0

/-- `cilog_backend::scan_next_index`: no scan when the monthly directory
does not exist; iterating an unreadable directory throws
(`boost::filesystem::directory_iterator` is the throwing overload). -/
def scan_next_index (w : FS) (dir dp sfx : Str) : Except Unit Nat :=
  if str_mem w.dirs dir then
    if str_mem w.unreadable dir then Except.error ()
    else Except.ok (scan_list (fs_listing w.files dir) dp sfx)
  else Except.ok 0

/-- Filename built by `generate_filepath`: the bracketed index is emitted
only when it is positive. -/
def make_filename (dp : Str) (n : Nat) (sfx : Str) : Str :=
  dp ++ (if n > 0 then '[' :: nat_str n ++ [']'] else []) ++
    '_' :: sfx ++ ['.', 'l', 'o', 'g']

/-- `cilog_backend::generate_filepath`, returning the monthly directory and
the filename; a scan failure propagates. -/
def generate_filepath (s : Sink) (w : FS) (now : Date) :
    Except Unit (Str × Str) :=
  match scan_next_index w (month_dir s now) (date_string now)
      s.file_name_suffix with
  | Except.error e => Except.error e
  | Except.ok n =>
    Except.ok (month_dir s now, make_filename (date_string now) n s.file_name_suffix)

/-- `boost::filesystem::create_directories` on the monthly directory: the
throwing overload; tolerant of an already existing directory. -/
def create_directories (w : FS) (dir : Str) : Except Unit FS :=
  if str_mem w.mkdir_fail dir then Except.error ()
  else Except.ok { w with dirs := if str_mem w.dirs dir then w.dirs else dir :: w.dirs }

/-- `cilog_backend::rotate_file`: `file_.close(); file_.clear();
characters_written_ = 0;`.  `clear()` resets the stream flags; `file_path_`
is not touched. -/
def rotate_file (s : Sink) : Sink :=
  { s with handle := none, good := true, characters_written := 0 }

/-- The rotation condition at the top of `consume`:
`(file_.is_open() && characters_written_ + formatted_message.size() >=
rotation_size_) || (!file_.good())`. -/
def rotation_needed (s : Sink) (len : Nat) : Bool :=
  (s.handle.isSome && decide (s.rotation_size ≤ s.characters_written + len))
    || !s.good

/-- `file_.open(file_path_)` followed by
`characters_written_ = static_cast<std::streamoff>(file_.tellp())`
(lines 114 and 120).  `boost::filesystem::ofstream::open` with its default
mode (`std::ios_base::out`) truncates an existing file, and `tellp()` right
after the open is the length of the (now empty) file. -/
def open_and_seed (w : FS) (dir nm : Str) : FS × Nat :=
  let w2 := { w with files := fs_write w.files dir nm [] }
  (w2, ((fs_read w2.files dir nm).getD []).length)

/-- Lines 122-126 of `consume`: `file_.write(data, size); file_.put('\n');
characters_written_ += formatted_message.size() + 1;`.  The subsequent
`flush()` (when `auto_flush_`) does not change the observable content. -/
def write_record (s : Sink) (w : FS) (dir nm : Str) (msg : Str) : Sink × FS :=
  let content := (fs_read w.files dir nm).getD []
  ({ s with characters_written := s.characters_written + msg.length + 1 },
   { w with files := fs_write w.files dir nm (content ++ msg ++ ['\n']) })

/-- `cilog_backend::consume`.  The `record_view` argument `_rec` is unused,
as in the source.  `Except.error ()` models a `boost::filesystem`
exception escaping to the caller (the C++ object's partially updated state
after the throw is not needed by any claim and is discarded). -/
def consume (s : Sink) (w : FS) (now : Date) (_rec : LogRecord) (msg : Str) :
    Except Unit (Sink × FS) :=
  let s1 := if rotation_needed s msg.length then rotate_file s else s
  match s1.handle with
  | some k => Except.ok (write_record s1 w k.1 k.2 msg)
  | none =>
    match generate_filepath s1 w now with
    | Except.error e => Except.error e
    | Except.ok (dir, nm) =>
      let s2 := { s1 with file_path := dir ++ '/' :: nm }
      match create_directories w dir with
      | Except.error e => Except.error e
      | Except.ok w1 =>
        if key_mem w1.open_fail dir nm then
          Except.ok ({ s2 with good := false }, w1)
        else
          let ow := open_and_seed w1 dir nm
          let s3 := { s2 with handle := some (dir, nm), good := true,
                              characters_written := ow.2 }
          Except.ok (write_record s3 ow.1 dir nm msg)

/-- Feeding a sequence of formatted messages to the sink, with a fixed wall
clock and record. -/
def consumeAll (now : Date) (r : LogRecord) :
    Sink → FS → List Str → Except Unit (Sink × FS)
  | s, w, [] => Except.ok (s, w)
  | s, w, m :: t =>
    match consume s w now r m with
    | Except.ok sw => consumeAll now r sw.1 sw.2 t
    | Except.error e => Except.error e

/-! ### Concrete fixtures used by the theorems -/

/-- The wall-clock date 2024-01-01. -/
def d0 : Date := ⟨2024, 1, 1⟩

/-- A record timestamped midday 2024-01-01. -/
def rec0 : LogRecord := ⟨d0, 12, 0, 0⟩

/-- Target root directory `logs`. -/
def rootC : Str := "logs".toList

/-- File-name suffix `app`. -/
def sfxC : Str := "app".toList

/-- Monthly directory `logs/2024-01`. -/
def monthlyC : Str := "logs/2024-01".toList

/-- First file of the day for suffix `app`. -/
def fnA : Str := "2024-01-01_app.log".toList

/-- Second file of the day for suffix `app`. -/
def fnB : Str := "2024-01-01[1]_app.log".toList

/-- Freshly constructed sink with rotation size `R`. -/
def snk0 (R : Nat) : Sink := mk_sink rootC sfxC R true

/-- Empty filesystem with no injected faults. -/
def fs0 : FS := ⟨[], [], [], [], []⟩

/-- Sink that is open on the first file of the day with `acc` characters
written. -/
def sinkOnA (R acc : Nat) : Sink :=
  { auto_flush := true, target_path := rootC, file_name_suffix := sfxC,
    rotation_size := R, handle := some (monthlyC, fnA), good := true,
    file_path := monthlyC ++ '/' :: fnA, characters_written := acc }

/-- Sink that is open on the second file of the day with `acc` characters
written. -/
def sinkOnB (R acc : Nat) : Sink :=
  { auto_flush := true, target_path := rootC, file_name_suffix := sfxC,
    rotation_size := R, handle := some (monthlyC, fnB), good := true,
    file_path := monthlyC ++ '/' :: fnB, characters_written := acc }

/-- Filesystem holding only the first file of the day, with content `c`. -/
def fsOnA (c : Str) : FS := ⟨[(monthlyC, fnA, c)], [monthlyC], [], [], []⟩

/-- Filesystem holding both files of the day, with contents `a` and `b`. -/
def fsAB (a b : Str) : FS :=
  ⟨[(monthlyC, fnA, a), (monthlyC, fnB, b)], [monthlyC], [], [], []⟩

/-- Bytes the sink counts for a record list: each record plus its newline. -/
def totalLen : List Str → Nat
  | [] => 0
  | m :: t => m.length + 1 + totalLen t

/-- File content produced by a record list: each record followed by its
trailing newline. -/
def joinRecords : List Str → Str
  | [] => []
  | m :: t => m ++ '\n' :: joinRecords t

/-- Starting from `acc` characters written, none of these records reaches
the rotation threshold `R` on arrival. -/
def no_rotate_run (R : Nat) : Nat → List Str → Prop
  | _, [] => True
  | acc, m :: t => acc + m.length < R ∧ no_rotate_run R (acc + m.length + 1) t

/-- Maximum of a list of naturals, `none` on the empty list. -/
def list_max_nat : List Nat → Option Nat
  | [] => none
  | n :: t =>
    match list_max_nat t with
    | none => some n
    | some m => some (max n m)

/-- Indices parsed from the directory entries matching the scan pattern. -/
def matched_indices (names : List Str) (dp sfx : Str) : List Nat :=
  (names.filter (name_matches dp sfx)).map parse_index

/-- 2024-01-31 and the following calendar day, in a different month. -/
def dJan : Date := ⟨2024, 1, 31⟩

/-- The day after `dJan`, crossing the month boundary. -/
def dFeb : Date := ⟨2024, 2, 1⟩

/-- Record timestamped 23:59:59 on 2024-01-31. -/
def recLate : LogRecord := ⟨dJan, 23, 59, 59⟩

/-- Record timestamped 00:00:01 on 2024-02-01. -/
def recEarly : LogRecord := ⟨dFeb, 0, 0, 1⟩

/-- File opened on 2024-01-31. -/
def fnJan : Str := "2024-01-31_app.log".toList

/-- Two consecutive records fed to a fresh sink: one while the clock reads
23:59:59 on 2024-01-31 and one while it reads 00:00:01 on 2024-02-01. -/
def two_day_run : Except Unit (Sink × FS) :=
  match consume (mk_sink rootC sfxC 100 true) fs0 dJan recLate "a".toList with
  | Except.ok sw => consume sw.1 sw.2 dFeb recEarly "b".toList
  | Except.error e => Except.error e

/-- A sink whose `file_path_` holds the path of the currently open file. -/
def snkPath : Sink :=
  { (mk_sink rootC sfxC 100 true) with
    handle := some (monthlyC, fnA),
    file_path := monthlyC ++ '/' :: fnA, characters_written := 5 }

/-- A same-day filename with malformed bracket content. -/
def malName : Str := "2024-01-01[x]_svc.log".toList

/-- File-name suffix `svc`. -/
def svcSfx : Str := "svc".toList

/-- Monthly directory containing only the malformed filename. -/
def fsMal : FS := ⟨[(monthlyC, malName, [])], [monthlyC], [], [], []⟩

/-- Filesystem where the computed destination path already holds a
10-byte file. -/
def fsExisting : FS := ⟨[(monthlyC, fnA, "0123456789".toList)], [monthlyC], [], [], []⟩

/-- Filesystem where creating the monthly directory fails. -/
def fsMk : FS := ⟨[], [], [], [monthlyC], []⟩

/-- Filesystem where the monthly directory exists but is unreadable. -/
def fsUn : FS := ⟨[], [monthlyC], [monthlyC], [], []⟩

/-- Sink open on the January file, below the rotation threshold. -/
def snkOpen : Sink :=
  { (mk_sink rootC sfxC 100 true) with
    handle := some (monthlyC, fnJan),
    file_path := monthlyC ++ '/' :: fnJan, characters_written := 2 }

/-- Filesystem holding the January file with one record. -/
def fsOpen : FS := ⟨[(monthlyC, fnJan, "a\n".toList)], [monthlyC], [], [], []⟩

/-- Open sink used for the verbatim-write witness. -/
def snkW10 : Sink :=
  { (mk_sink rootC sfxC 100 true) with
    handle := some (monthlyC, fnA),
    file_path := monthlyC ++ '/' :: fnA, characters_written := 2 }

/-- Filesystem for the verbatim-write witness. -/
def fsW10 : FS := ⟨[(monthlyC, fnA, "A\n".toList)], [monthlyC], [], [], []⟩

/-- Sink state left behind by a failed open: no handle, failbit set,
`file_path_` still holding the path whose open failed. -/
def snkFailed : Sink :=
  { (mk_sink rootC sfxC 100 true) with
    good := false,
    file_path := monthlyC ++ '/' :: fnA }

/-- Filesystem at the retry: the file whose open failed now exists. -/
def fsRetry : FS := ⟨[(monthlyC, fnA, [])], [monthlyC], [], [], []⟩

/-- Sink after the retry succeeded on the next free index. -/
def snkRetryAfter : Sink :=
  { (mk_sink rootC sfxC 100 true) with
    handle := some (monthlyC, fnB),
    file_path := monthlyC ++ '/' :: fnB, characters_written := 2 }

/-- Filesystem after the retry: old file untouched, new indexed file holds
the retried record. -/
def fsRetryAfter : FS :=
  ⟨[(monthlyC, fnA, []), (monthlyC, fnB, "x\n".toList)], [monthlyC], [], [], []⟩

/-- Filesystem where opening the first file of the day fails. -/
def fsOF : FS := ⟨[], [], [], [], [(monthlyC, fnA)]⟩

/-! ### Helper lemmas -/

/-- A list is a `==`-prefix of itself followed by anything. -/
theorem isPrefixOf_append_self (l t : List Char) : l.isPrefixOf (l ++ t) = true := by
  induction l with
  | nil => simp [List.isPrefixOf]
  | cons c cs ih => simp [List.isPrefixOf, ih]

/-! ### Claim theorems -/

/-- Claim C8 counterexample: `rotate_file` does not clear `file_path_`; on a
sink whose `file_path_` is the (nonempty) path of the open file, the path is
unchanged after rotation instead of being cleared to empty. -/
theorem rotate_keeps_file_path_cx :
    (rotate_file snkPath).file_path = monthlyC ++ '/' :: fnA ∧
    monthlyC ++ '/' :: fnA ≠ ([] : Str) :=
  ⟨rfl, by decide⟩

/-- Claim C8 (amended): rotation closes the current file, clears the stream
error flags, resets `characters_written_` to 0, and leaves `file_path_` as
well as the configuration (`target_path_`, `file_name_suffix_`,
`rotation_size_`, `auto_flush_`) unchanged. -/
theorem rotate_file_effects (s : Sink) :
    (rotate_file s).handle = none ∧
    (rotate_file s).characters_written = 0 ∧
    (rotate_file s).good = true ∧
    (rotate_file s).file_path = s.file_path ∧
    (rotate_file s).target_path = s.target_path ∧
    (rotate_file s).file_name_suffix = s.file_name_suffix ∧
    (rotate_file s).rotation_size = s.rotation_size ∧
    (rotate_file s).auto_flush = s.auto_flush :=
  ⟨rfl, rfl, rfl, rfl, rfl, rfl, rfl, rfl⟩

/-- Claim C6 counterexample: the malformed name `2024-01-01[x]_svc.log` is
not matched by the scan pattern at all (`x` is outside the bracket character
class), so a directory containing only it yields next index 0 — not 1, as
it would if the name were treated as a match with index 0. -/
theorem malformed_bracket_cx :
    name_matches "2024-01-01".toList svcSfx malName = false ∧
    scan_list [malName] "2024-01-01".toList svcSfx = 0 := by
  decide

/-- Claim C6 (amended): a filename with malformed bracket content does not
abort the scan — the scan still completes normally — but it is skipped by
the pattern rather than counted as an index-0 match: alone it yields next
index 0, and together with a well-formed unindexed file the next index is
determined by the well-formed file only. -/
theorem malformed_bracket_skipped :
    scan_next_index fsMal monthlyC "2024-01-01".toList svcSfx = Except.ok 0 ∧
    scan_list [malName, "2024-01-01_svc.log".toList] "2024-01-01".toList svcSfx = 1 :=
  ⟨rfl, by decide⟩

/-- Claim C3 (code bug): `file_.open(file_path_)` uses the default
truncating mode, so when a 10-byte file already exists at the computed path
the open destroys its content and the `tellp()` seeding of
`characters_written_` yields 0, not the previous on-disk size. -/
theorem open_truncates_existing_file :
    (open_and_seed fsExisting monthlyC fnA).2 = 0 ∧
    fs_read (open_and_seed fsExisting monthlyC fnA).1.files monthlyC fnA = some [] ∧
    fs_read fsExisting.files monthlyC fnA = some ("0123456789".toList) ∧
    ("0123456789".toList).length = 10 :=
  ⟨rfl, rfl, rfl, rfl⟩

/-- Claim C2 counterexample: a record consumed while the clock reads
23:59:59 on 2024-01-31 and the next record consumed while the clock reads
00:00:01 on 2024-02-01 land in the *same* file `logs/2024-01/
2024-01-31_app.log` — there is no rotation by calendar day. -/
theorem day_change_same_file_cx :
    two_day_run = Except.ok
      ({ auto_flush := true, target_path := rootC, file_name_suffix := sfxC,
         rotation_size := 100, handle := some (monthlyC, fnJan), good := true,
         file_path := monthlyC ++ '/' :: fnJan, characters_written := 4 },
       ⟨[(monthlyC, fnJan, "a\nb\n".toList)], [monthlyC], [], [], []⟩) ∧
    dJan.day ≠ dFeb.day ∧ dJan.month ≠ dFeb.month :=
  ⟨rfl, by decide, by decide⟩

/-- Claim C2 (amended): the sink never rotates by elapsed calendar day;
rotation is triggered only by accumulated size or a bad stream state.  While
a file is open, good, and below the size threshold, `consume` is entirely
independent of both the wall-clock date and the record timestamp, so
consecutive records on different calendar days are appended to the same
date-named file; the calendar date determines directory and filename only
at the moment a file is opened. -/
theorem no_calendar_rotation (s : Sink) (w : FS) (d d' : Date)
    (r r' : LogRecord) (m : Str)
    (h1 : s.handle.isSome = true) (h2 : s.good = true)
    (h3 : s.characters_written + m.length < s.rotation_size) :
    consume s w d r m = consume s w d' r' m := by
  have hle : ¬ (s.rotation_size ≤ s.characters_written + m.length) := by omega
  have hrot : rotation_needed s m.length = false := by
    simp [rotation_needed, h1, h2, hle]
  cases hk : s.handle with
  | none => rw [hk] at h1; simp at h1
  | some k => simp [consume, hrot, hk]

/-- Witness for the amended C2 theorem at a concrete open sink and the two
boundary dates. -/
theorem no_calendar_rotation_witness :
    consume snkOpen fsOpen dJan recLate "b".toList =
      consume snkOpen fsOpen dFeb recEarly "b".toList :=
  no_calendar_rotation snkOpen fsOpen dJan dFeb recLate recEarly
    "b".toList rfl rfl (by decide)

/-- Claim C4 counterexample: `consume` does raise.  With a fresh sink, a
failing `create_directories` on the monthly directory propagates an
exception out of `consume`, and so does scanning an existing but unreadable
monthly directory — neither failure is absorbed. -/
theorem consume_raises_cx :
    consume (mk_sink rootC sfxC 100 true) fsMk d0 rec0 "z".toList = Except.error () ∧
    consume (mk_sink rootC sfxC 100 true) fsUn d0 rec0 "z".toList = Except.error () :=
  ⟨rfl, rfl⟩

/-- Claim C4 (amended): with no file open, a scan failure on the monthly
directory (existing but unreadable) or a `create_directories` failure makes
`consume` raise to its caller; these filesystem failures are not absorbed.
(Only the `ofstream::open` failure is absorbed, per the open-failure
theorem.) -/
theorem consume_error_policy (s : Sink) (w : FS) (d : Date) (r : LogRecord)
    (m : Str) (h1 : s.handle = none) (h2 : s.good = true) :
    (str_mem w.dirs (month_dir s d) = true →
     str_mem w.unreadable (month_dir s d) = true →
     consume s w d r m = Except.error ()) ∧
    (str_mem w.unreadable (month_dir s d) = false →
     str_mem w.mkdir_fail (month_dir s d) = true →
     consume s w d r m = Except.error ()) := by
  have hrot : rotation_needed s m.length = false := by
    simp [rotation_needed, h1, h2]
  constructor
  · intro hd hu
    simp [consume, hrot, h1, generate_filepath, scan_next_index, hd, hu]
  · intro hu hmk
    cases hdir : str_mem w.dirs (month_dir s d) <;>
      simp [consume, hrot, h1, generate_filepath, scan_next_index, hdir, hu,
        hmk, create_directories]

/-- Witness for the amended C4 theorem: the unreadable-directory failure at
a concrete fresh sink. -/
theorem consume_error_policy_witness :
    consume (mk_sink rootC sfxC 7 true) fsUn d0 rec0 [] = Except.error () :=
  (consume_error_policy (mk_sink rootC sfxC 7 true) fsUn d0 rec0 [] rfl rfl).1
    rfl rfl

/-- Claim C10: `consume` performs no validation of the formatted message.
For any message — arbitrary bytes, including embedded newlines — written to
the open file, the bytes are appended verbatim followed by exactly one LF,
and `characters_written_` increases by `len(message) + 1`. -/
theorem write_verbatim_plus_newline (s : Sink) (w : FS) (d : Date)
    (r : LogRecord) (m dir nm : Str)
    (h1 : s.handle = some (dir, nm)) (h2 : s.good = true)
    (h3 : s.characters_written + m.length < s.rotation_size) :
    consume s w d r m = Except.ok
      ({ s with characters_written := s.characters_written + m.length + 1 },
       { w with
           files := fs_write w.files dir nm
             ((fs_read w.files dir nm).getD [] ++ m ++ ['\n']) }) := by
  have hle : ¬ (s.rotation_size ≤ s.characters_written + m.length) := by omega
  have hrot : rotation_needed s m.length = false := by
    simp [rotation_needed, h2, hle]
  simp [consume, hrot, h1, write_record]

/-- Witness for C10 at a message with an embedded newline: `ab\nc` is
written verbatim plus one trailing LF and the counter grows by 5. -/
theorem write_verbatim_plus_newline_witness :
    consume snkW10 fsW10 d0 rec0 "ab\nc".toList = Except.ok
      ({ snkW10 with
         characters_written := snkW10.characters_written + ("ab\nc".toList).length + 1 },
       { fsW10 with
           files := fs_write fsW10.files monthlyC fnA
             ((fs_read fsW10.files monthlyC fnA).getD [] ++ "ab\nc".toList ++ ['\n']) }) :=
  write_verbatim_plus_newline snkW10 fsW10 d0 rec0 "ab\nc".toList
    monthlyC fnA rfl rfl (by decide)

/-- Claim C9: the record passed to `consume` is ignored entirely (its
timestamp plays no role), and the path of a newly generated file is derived
from the wall-clock date parameter: its directory is the clock's monthly
directory and its name starts with the clock's date string. -/
theorem naming_uses_clock_not_record :
    (∀ (s : Sink) (w : FS) (d : Date) (r r' : LogRecord) (m : Str),
      consume s w d r m = consume s w d r' m) ∧
    (∀ (s : Sink) (w : FS) (d : Date) (dir nm : Str),
      generate_filepath s w d = Except.ok (dir, nm) →
      dir = month_dir s d ∧ (date_string d).isPrefixOf nm = true) := by
  constructor
  · intro s w d r r' m
    rfl
  · intro s w d dir nm h
    unfold generate_filepath at h
    cases hscan : scan_next_index w (month_dir s d) (date_string d)
        s.file_name_suffix with
    | error e => rw [hscan] at h; cases h
    | ok n =>
      rw [hscan] at h
      cases h
      refine ⟨rfl, ?_⟩
      unfold make_filename
      simp only [List.append_assoc]
      exact isPrefixOf_append_self _ _

/-- Witness for C9 at a fresh sink on the empty filesystem. -/
theorem naming_uses_clock_not_record_witness :
    monthlyC = month_dir (mk_sink rootC sfxC 100 true) d0 ∧
    (date_string d0).isPrefixOf fnA = true :=
  naming_uses_clock_not_record.2 (mk_sink rootC sfxC 100 true) fs0 d0
    monthlyC fnA rfl

/-- Claim C7: when opening the computed path fails, `consume` returns
normally (the record is dropped silently), no handle is held, the failbit is
set and `file_path_` holds the failed path, and the filesystem is unchanged
except for the created directories; moreover — second conjunct — a
subsequent `consume` on a sink left in that state recomputes the path from
scratch and picks the next free index when the file now exists: it opens
`2024-01-01[1]_app.log` next to the existing `2024-01-01_app.log` and
writes the new record there. -/
theorem open_failure_drops_and_retries :
    (∀ (s : Sink) (w : FS) (d : Date) (r : LogRecord) (m dir nm : Str),
      s.handle = none → s.good = true →
      generate_filepath s w d = Except.ok (dir, nm) →
      str_mem w.mkdir_fail dir = false →
      key_mem w.open_fail dir nm = true →
      consume s w d r m = Except.ok
        ({ s with file_path := dir ++ '/' :: nm, good := false },
         { w with dirs := if str_mem w.dirs dir then w.dirs else dir :: w.dirs })) ∧
    consume snkFailed fsRetry d0 rec0 "x".toList =
      Except.ok (snkRetryAfter, fsRetryAfter) := by
  constructor
  · intro s w d r m dir nm h1 h2 hgen hmk hopen
    have hrot : rotation_needed s m.length = false := by
      simp [rotation_needed, h1, h2]
    simp [consume, hrot, h1, hgen, create_directories, hmk, hopen]
  · rfl

/-- Witness for the open-failure branch of C7 at a concrete fresh sink. -/
theorem open_failure_drops_and_retries_witness :
    consume (mk_sink rootC sfxC 100 true) fsOF d0 rec0 "y".toList = Except.ok
      ({ (mk_sink rootC sfxC 100 true) with
         file_path := monthlyC ++ '/' :: fnA, good := false },
       ⟨[], [monthlyC], [], [], [(monthlyC, fnA)]⟩) :=
  open_failure_drops_and_retries.1 (mk_sink rootC sfxC 100 true) fsOF d0 rec0
    "y".toList monthlyC fnA rfl rfl rfl rfl rfl

/-- One scan step on a matching name takes the maximum of the accumulator
and the parsed index plus one. -/
theorem scan_step_eq_max (dp sfx : Str) (a : Nat) (nm : Str)
    (hm : name_matches dp sfx nm = true) :
    scan_step dp sfx a nm = max a (parse_index nm + 1) := by
  unfold scan_step
  rw [hm]
  simp only [if_true]
  rcases Nat.lt_or_ge (parse_index nm) a with h | h
  · rw [if_neg (by omega), Nat.max_eq_left (by omega)]
  · rw [if_pos h, Nat.max_eq_right (by omega)]

/-- The scan loop started at accumulator `a` computes the maximum of `a` and
the successors of all matched indices. -/
theorem scan_fold_acc (dp sfx : Str) :
    ∀ (names : List Str) (a : Nat),
      names.foldl (scan_step dp sfx) a =
        (match list_max_nat (matched_indices names dp sfx) with
         | none => a
         | some m => max a (m + 1)) := by
  intro names
  induction names with
  | nil =>
    intro a
    simp [matched_indices, list_max_nat]
  | cons nm t ih =>
    intro a
    cases hm : name_matches dp sfx nm with
    | false =>
      have hstep : scan_step dp sfx a nm = a := by simp [scan_step, hm]
      simp only [List.foldl_cons, hstep, matched_indices, List.filter_cons, hm]
      simpa [matched_indices] using ih a
    | true =>
      simp only [List.foldl_cons, scan_step_eq_max dp sfx a nm hm,
        matched_indices, List.filter_cons, hm, if_true, List.map_cons]
      rw [ih (max a (parse_index nm + 1))]
      simp only [matched_indices]
      cases hmax : list_max_nat ((t.filter (name_matches dp sfx)).map parse_index) with
      | none => simp [list_max_nat, hmax]
      | some m =>
        simp only [list_max_nat, hmax]
        rw [Nat.max_assoc, Nat.add_max_add_right]

/-- Claim C5: every generated file path lies in the clock's monthly
directory under `target_path_`, with filename `date` + `[n]` (brackets only
when `n > 0`) + `_` + suffix + `.log`, where the scanned next index `n` is
the maximum index among existing matching files plus one when any match
exists, and 0 otherwise; in particular a directory holding
`2024-01-01_app.log` and `2024-01-01[1]_app.log` scans to next index 2. -/
theorem generate_filepath_form_and_index :
    (∀ (names : List Str) (dp sfx : Str),
      scan_list names dp sfx =
        (match list_max_nat (matched_indices names dp sfx) with
         | none => 0
         | some m => m + 1)) ∧
    (∀ (s : Sink) (w : FS) (d : Date) (dir nm : Str),
      generate_filepath s w d = Except.ok (dir, nm) →
      ∃ n, scan_next_index w (month_dir s d) (date_string d)
            s.file_name_suffix = Except.ok n ∧
          dir = month_dir s d ∧
          nm = make_filename (date_string d) n s.file_name_suffix) ∧
    scan_list ["2024-01-01_app.log".toList, "2024-01-01[1]_app.log".toList]
      "2024-01-01".toList "app".toList = 2 := by
  refine ⟨?_, ?_, by decide⟩
  · intro names dp sfx
    rw [scan_list, scan_fold_acc dp sfx names 0]
    cases hmax : list_max_nat (matched_indices names dp sfx) with
    | none => rfl
    | some m => simp [Nat.zero_max]
  · intro s w d dir nm h
    unfold generate_filepath at h
    cases hscan : scan_next_index w (month_dir s d) (date_string d)
        s.file_name_suffix with
    | error e => rw [hscan] at h; cases h
    | ok n =>
      rw [hscan] at h
      cases h
      exact ⟨n, rfl, rfl, rfl⟩

/-- Witness for C5 at a fresh sink over the empty filesystem, where the
scan yields index 0 and the generated name is `2024-01-01_app.log`. -/
theorem generate_filepath_form_and_index_witness :
    ∃ n, scan_next_index fs0 (month_dir (mk_sink rootC sfxC 100 true) d0)
          (date_string d0) (mk_sink rootC sfxC 100 true).file_name_suffix =
          Except.ok n ∧
        monthlyC = month_dir (mk_sink rootC sfxC 100 true) d0 ∧
        fnA = make_filename (date_string d0) n
          (mk_sink rootC sfxC 100 true).file_name_suffix :=
  generate_filepath_form_and_index.2.1 (mk_sink rootC sfxC 100 true) fs0 d0
    monthlyC fnA rfl

/-- First record on a fresh sink: no rotation is possible (no file open),
the first file of the day is created and the record written to it. -/
theorem consume_first (R : Nat) (r : LogRecord) (m : Str) :
    consume (snk0 R) fs0 d0 r m =
      Except.ok (sinkOnA R (m.length + 1), fsOnA (m ++ ['\n'])) := by
  have h : consume (snk0 R) fs0 d0 r m =
      Except.ok (sinkOnA R (0 + m.length + 1), fsOnA (m ++ ['\n'])) := rfl
  simpa using h

/-- A record that keeps the open file below the rotation threshold is
appended to it. -/
theorem consume_steady (R acc : Nat) (c m : Str) (d : Date) (r : LogRecord)
    (h : acc + m.length < R) :
    consume (sinkOnA R acc) (fsOnA c) d r m =
      Except.ok (sinkOnA R (acc + m.length + 1), fsOnA (c ++ m ++ ['\n'])) := by
  have hle : ¬ (R ≤ acc + m.length) := by omega
  have hrot : rotation_needed (sinkOnA R acc) m.length = false := by
    simp [rotation_needed, sinkOnA, hle]
  have hwr : write_record (sinkOnA R acc) (fsOnA c) monthlyC fnA m =
      (sinkOnA R (acc + m.length + 1), fsOnA (c ++ m ++ ['\n'])) := rfl
  unfold consume
  rw [hrot]
  exact congrArg Except.ok hwr

/-- Run of records none of which reaches the threshold: all are appended to
the open file in order. -/
theorem consume_run (R : Nat) (r : LogRecord) :
    ∀ (ms : List Str) (acc : Nat) (c : Str), no_rotate_run R acc ms →
      consumeAll d0 r (sinkOnA R acc) (fsOnA c) ms =
        Except.ok (sinkOnA R (acc + totalLen ms), fsOnA (c ++ joinRecords ms)) := by
  intro ms
  induction ms with
  | nil =>
    intro acc c _
    simp [consumeAll, totalLen, joinRecords]
  | cons m t ih =>
    intro acc c hrun
    obtain ⟨h1, h2⟩ := hrun
    have hstep := consume_steady R acc c m d0 r h1
    have e1 : acc + m.length + 1 + totalLen t = acc + totalLen (m :: t) := by
      simp [totalLen]
      omega
    have e2 : c ++ m ++ ['\n'] ++ joinRecords t = c ++ joinRecords (m :: t) := by
      simp [joinRecords, List.append_assoc]
    simp only [consumeAll, hstep]
    rw [ih (acc + m.length + 1) (c ++ m ++ ['\n']) h2, e1, e2]

/-- When the rotation condition fires and the reopened path is healthy, the
record goes through rotation, path generation, directory creation, open and
write, in the order of the source. -/
theorem consume_rotate_opens (s : Sink) (w : FS) (d : Date) (r : LogRecord)
    (m dir nm : Str)
    (hrot : rotation_needed s m.length = true)
    (hgen : generate_filepath (rotate_file s) w d = Except.ok (dir, nm))
    (hmk : str_mem w.mkdir_fail dir = false)
    (hopen : key_mem w.open_fail dir nm = false) :
    consume s w d r m =
      Except.ok
        (write_record
          { rotate_file s with
            handle := some (dir, nm), good := true,
            file_path := dir ++ '/' :: nm,
            characters_written :=
              (open_and_seed
                { w with dirs := if str_mem w.dirs dir then w.dirs else dir :: w.dirs }
                dir nm).2 }
          (open_and_seed
            { w with dirs := if str_mem w.dirs dir then w.dirs else dir :: w.dirs }
            dir nm).1 dir nm m) := by
  have hhandle : (rotate_file s).handle = none := rfl
  simp [consume, hrot, hhandle, hgen, create_directories, hmk, hopen]

/-- The record that reaches the threshold triggers rotation first: the open
file is closed untouched, the scan of the monthly directory yields index 1,
and the record is written to the freshly opened `2024-01-01[1]_app.log`. -/
theorem consume_rotate_step (R P : Nat) (c mN : Str) (r : LogRecord)
    (h : R ≤ P + mN.length) :
    consume (sinkOnA R P) (fsOnA c) d0 r mN =
      Except.ok (sinkOnB R (mN.length + 1), fsAB c (mN ++ ['\n'])) := by
  have hrot : rotation_needed (sinkOnA R P) mN.length = true := by
    simp [rotation_needed, sinkOnA, h]
  have hscan : scan_next_index (fsOnA c) (month_dir (rotate_file (sinkOnA R P)) d0)
      (date_string d0) (rotate_file (sinkOnA R P)).file_name_suffix = Except.ok 1 := by
    rfl
  have hgen : generate_filepath (rotate_file (sinkOnA R P)) (fsOnA c) d0 =
      Except.ok (monthlyC, fnB) := by
    unfold generate_filepath
    rw [hscan]
    rfl
  have hstep := consume_rotate_opens (sinkOnA R P) (fsOnA c) d0 r mN monthlyC fnB
    hrot hgen (by rfl) (by rfl)
  rw [hstep]
  have hfin : write_record
      { rotate_file (sinkOnA R P) with
        handle := some (monthlyC, fnB), good := true,
        file_path := monthlyC ++ '/' :: fnB,
        characters_written :=
          (open_and_seed
            { (fsOnA c) with
              dirs := if str_mem (fsOnA c).dirs monthlyC then (fsOnA c).dirs
                      else monthlyC :: (fsOnA c).dirs }
            monthlyC fnB).2 }
      (open_and_seed
        { (fsOnA c) with
          dirs := if str_mem (fsOnA c).dirs monthlyC then (fsOnA c).dirs
                  else monthlyC :: (fsOnA c).dirs }
        monthlyC fnB).1 monthlyC fnB mN =
      (sinkOnB R (0 + mN.length + 1), fsAB c (mN ++ ['\n'])) := by
    rfl
  rw [hfin]
  simp

/-- `consumeAll` splits over list concatenation. -/
theorem consumeAll_append (d : Date) (r : LogRecord) :
    ∀ (xs : List Str) (s : Sink) (w : FS) (ys : List Str),
      consumeAll d r s w (xs ++ ys) =
        (match consumeAll d r s w xs with
         | Except.ok sw => consumeAll d r sw.1 sw.2 ys
         | Except.error e => Except.error e) := by
  intro xs
  induction xs with
  | nil =>
    intro s w ys
    simp [consumeAll]
  | cons x t ih =>
    intro s w ys
    simp only [List.cons_append, consumeAll]
    cases hx : consume s w d r x with
    | ok sw => simp [ih]
    | error e => simp

/-- Claim C1: starting from a fresh sink, if no record of the first batch
reaches `rotation_size_` on arrival but record N does
(`characters_written_ + len(record N) >= rotation_size_`), then the sink
rotates before writing record N: the first file of the day contains exactly
records 1..N-1, each followed by its trailing newline, and record N is
written to a newly opened, differently named file. -/
theorem size_rotation_splits_files (R : Nat) (r : LogRecord) (m1 mN : Str)
    (rest : List Str)
    (hrun : no_rotate_run R (m1.length + 1) rest)
    (hbig : R ≤ m1.length + 1 + totalLen rest + mN.length) :
    consumeAll d0 r (snk0 R) fs0 ((m1 :: rest) ++ [mN]) =
      Except.ok (sinkOnB R (mN.length + 1),
        fsAB (joinRecords (m1 :: rest)) (mN ++ ['\n'])) ∧
    fnA ≠ fnB := by
  refine ⟨?_, by decide⟩
  rw [consumeAll_append d0 r (m1 :: rest) (snk0 R) fs0 [mN]]
  have h1 : consumeAll d0 r (snk0 R) fs0 (m1 :: rest) =
      Except.ok (sinkOnA R (m1.length + 1 + totalLen rest),
        fsOnA (m1 ++ ['\n'] ++ joinRecords rest)) := by
    simp only [consumeAll, consume_first R r m1]
    exact consume_run R r rest (m1.length + 1) (m1 ++ ['\n']) hrun
  rw [h1]
  have h3 := consume_rotate_step R (m1.length + 1 + totalLen rest)
    (m1 ++ ['\n'] ++ joinRecords rest) mN r (by omega)
  simp only [consumeAll, h3]
  have e : m1 ++ ['\n'] ++ joinRecords rest = joinRecords (m1 :: rest) := by
    simp [joinRecords, List.append_assoc]
  rw [e]

/-- Witness for C1: rotation size 12, records `aaaa`, `bb`, then `cccc`
(which arrives at 8 counted bytes and 8 + 4 >= 12): the first file holds
`aaaa\nbb\n`, the second file holds `cccc\n`. -/
theorem size_rotation_splits_files_witness :
    no_rotate_run 12 (("aaaa".toList).length + 1) ["bb".toList] ∧
    12 ≤ ("aaaa".toList).length + 1 + totalLen ["bb".toList] +
      ("cccc".toList).length ∧
    (consumeAll d0 rec0 (snk0 12) fs0
        (("aaaa".toList :: ["bb".toList]) ++ ["cccc".toList]) =
      Except.ok (sinkOnB 12 (("cccc".toList).length + 1),
        fsAB (joinRecords ("aaaa".toList :: ["bb".toList]))
          ("cccc".toList ++ ['\n'])) ∧
    fnA ≠ fnB) := by
  refine ⟨⟨by decide, trivial⟩, by decide, ?_⟩
  exact size_rotation_splits_files 12 rec0 "aaaa".toList "cccc".toList
    ["bb".toList] ⟨by decide, trivial⟩ (by decide)
